import Mathlib

/-!
Verification of the organic-scoring core: the bounded random-access queue
(`organic_queue/organic_queue.py`), the adaptive scheduler construction and
pacing law (`organic_scoring_base.py`), and the run loop.  Python floats and
ints are modelled as rationals and integers; randomness (`random.randint`,
`random.choice`) is modelled by an explicit seed parameter; fallible Python
code is modelled with `Except`.
-/

namespace OrganicScoring

/-- Python exceptions that the modelled code can raise. -/
inductive PyErr where
  | typeError
  | indexError
  | assertionError
  | exception (msg : String)
deriving DecidableEq, Repr

/-- Model of `random.randint(0, n)` from the Python standard library: a draw
from the inclusive range `[0, n]`, parameterised by an arbitrary seed. -/
def randint (seed n : ℕ) : ℕ :=
  seed % (n + 1)

/-- Model of `random.choice(xs)`: picks an arbitrary element of `xs`
(position given by the seed); raises `IndexError` when `xs` is empty. -/
def random_choice (seed : ℕ) (xs : List α) : Except PyErr α :=
  match xs[seed % xs.length]? with
  | some x => .ok x
  | none => .error .indexError

/-! ## BoundedSampleQueue: `organic_queue/organic_queue.py` -/

/-- State of `OrganicQueue` (organic_queue.py, lines 7-11): a plain list
`_queue` plus the capacity `max_size` (constructor default 10000). -/
structure OrganicQueue (α : Type) where
  queue : List α
  max_size : ℕ
deriving DecidableEq, Repr

/-- `OrganicQueue.size` (organic_queue.py, lines 25-27): `len(self._queue)`.
In the Python source this is a `@property`, so the attribute access `q.size`
yields an `int` value, not a bound method. -/
def OrganicQueue.size (q : OrganicQueue α) : ℕ :=
  q.queue.length

/-- `OrganicQueueBase.is_empty` (organic_queue_base.py, lines 32-33):
`self.size == 0`. -/
def OrganicQueue.is_empty (q : OrganicQueue α) : Bool :=
  q.size == 0

/-- `OrganicQueue.add` (organic_queue.py, lines 13-17):
`if self.size >= self.max_size: self._queue.pop(0)` then
`self._queue.append(sample)`.  `list.pop(0)` on an empty list raises
`IndexError`, hence the `Except` result; on a non-empty list it removes the
head (the oldest element). -/
def OrganicQueue.add (q : OrganicQueue α) (sample : α) : Except PyErr (OrganicQueue α) :=
  if q.max_size ≤ q.size then
    match q.queue with
    | [] => .error .indexError
    | _ :: rest => .ok ⟨rest ++ [sample], q.max_size⟩
  else
    .ok ⟨q.queue ++ [sample], q.max_size⟩

/-- A sequence of `add` calls, stopping at the first raised exception. -/
def OrganicQueue.addAll (q : OrganicQueue α) (samples : List α) : Except PyErr (OrganicQueue α) :=
  match samples with
  | [] => .ok q
  | s :: rest => (q.add s).bind (fun q1 => q1.addAll rest)

/-- `OrganicQueue.sample` (organic_queue.py, lines 19-23): if the queue is
empty return `None`; otherwise `self._queue.pop(random.randint(0, self.size - 1))`,
which removes and returns the element at the drawn position. -/
def OrganicQueue.sample (q : OrganicQueue α) (seed : ℕ) : Option α × OrganicQueue α :=
  if q.is_empty then
    (none, q)
  else
    let i := randint seed (q.size - 1)
    (q.queue[i]?, ⟨q.queue.eraseIdx i, q.max_size⟩)

/-- One `add` call keeps the capacity bound: on a queue with positive
capacity whose size is within capacity, `add` succeeds and the result is
again within capacity. -/
theorem OrganicQueue.add_ok {α : Type} (q : OrganicQueue α) (s : α)
    (hpos : 0 < q.max_size) (hle : q.size ≤ q.max_size) :
    ∃ q1, q.add s = .ok q1 ∧ q1.max_size = q.max_size ∧ q1.size ≤ q.max_size := by
  obtain ⟨l, m⟩ := q
  simp only [OrganicQueue.size] at *
  by_cases h : m ≤ l.length
  · cases l with
    | nil =>
      simp only [List.length_nil] at h
      omega
    | cons a t =>
      refine ⟨⟨t ++ [s], m⟩, ?_, rfl, ?_⟩
      · simp only [OrganicQueue.add, OrganicQueue.size, if_pos h]
      · simp only [OrganicQueue.size, List.length_append, List.length_cons,
          List.length_nil] at *
        omega
  · refine ⟨⟨l ++ [s], m⟩, ?_, rfl, ?_⟩
    · simp only [OrganicQueue.add, OrganicQueue.size, if_neg h]
    · simp only [OrganicQueue.size, List.length_append, List.length_cons,
        List.length_nil] at *
      omega

/-- Iterated `add` keeps the capacity bound. -/
theorem OrganicQueue.addAll_ok {α : Type} (samples : List α) :
    ∀ q : OrganicQueue α, 0 < q.max_size → q.size ≤ q.max_size →
      ∃ q1, q.addAll samples = .ok q1 ∧ q1.max_size = q.max_size ∧ q1.size ≤ q.max_size := by
  induction samples with
  | nil => exact fun q _ h2 => ⟨q, rfl, rfl, h2⟩
  | cons s rest ih =>
    intro q hpos hle
    obtain ⟨q1, hadd, hmax, hsz⟩ := OrganicQueue.add_ok q s hpos hle
    obtain ⟨q2, hall, hmax2, hsz2⟩ := ih q1 (by omega) (by omega)
    refine ⟨q2, ?_, by omega, by omega⟩
    simp only [OrganicQueue.addAll, hadd, Except.bind, hall]

/-- C4 (confirmed): starting from an empty queue with positive capacity `m`,
any sequence of `add` calls succeeds and leaves the size at most `m`; since
this is quantified over all sequences, it covers the state after each
intermediate call (every prefix is itself such a sequence).  Moreover the
eviction is oldest-first: adding 1, 2, 3 to a capacity-2 queue leaves
exactly [2, 3]. -/
theorem queue_capacity_invariant (m : ℕ) (hm : 0 < m) (samples : List ℕ) :
    (∃ q1, (OrganicQueue.mk ([] : List ℕ) m).addAll samples = .ok q1 ∧ q1.size ≤ m) ∧
    (OrganicQueue.mk ([] : List ℕ) 2).addAll [1, 2, 3] = .ok ⟨[2, 3], 2⟩ := by
  constructor
  · obtain ⟨q1, h1, _, h3⟩ :=
      OrganicQueue.addAll_ok samples ⟨[], m⟩ hm (by simp [OrganicQueue.size])
    exact ⟨q1, h1, h3⟩
  · rfl

/-- Witness for C4 at capacity 2 and samples [5, 6, 7]. -/
theorem queue_capacity_invariant_witness :
    0 < 2 ∧
    ((∃ q1, (OrganicQueue.mk ([] : List ℕ) 2).addAll [5, 6, 7] = .ok q1 ∧ q1.size ≤ 2) ∧
      (OrganicQueue.mk ([] : List ℕ) 2).addAll [1, 2, 3] = .ok ⟨[2, 3], 2⟩) :=
  ⟨by decide, queue_capacity_invariant 2 (by decide) [5, 6, 7]⟩

/-- Removing the element at a valid position removes exactly one occurrence
of that element. -/
theorem count_eraseIdx_getElem (l : List ℕ) (i : ℕ) (h : i < l.length) :
    (l.eraseIdx i).count l[i] + 1 = l.count l[i] := by
  induction l generalizing i with
  | nil => simp at h
  | cons a t ih =>
    cases i with
    | zero => simp [List.count_cons]
    | succ n =>
      have hn : n < t.length := by
        simp only [List.length_cons] at h
        omega
      have hget : (a :: t)[n + 1] = t[n] := List.getElem_cons_succ a t n (by simp; omega)
      have heq : (a :: t).eraseIdx (n + 1) = a :: t.eraseIdx n := rfl
      have hih := ih n hn
      rw [heq, hget, List.count_cons, List.count_cons]
      by_cases hab : (a == t[n]) = true
      · omega
      · omega

/-- C5 counterexample: on the queue [0, 0] the drawn position is 0 (seed 0),
`sample` returns the element 0, yet 0 is still present in the remaining
queue — contradicting the claim that the returned element is no longer
present after `sample()`. -/
theorem sample_duplicate_still_present :
    ((OrganicQueue.mk [0, 0] 10).sample 0).1 = some 0 ∧
    0 ∈ ((OrganicQueue.mk [0, 0] 10).sample 0).2.queue := by
  decide

/-- C5 (amended): on a non-empty queue, `sample` returns some element of the
queue, the size decreases by exactly 1, and exactly one occurrence of the
returned element is removed (so the returned element is absent afterwards
whenever it occurred only once); on an empty queue `sample` returns `none`
and leaves the queue unchanged. -/
theorem sample_removes_one_occurrence (q : OrganicQueue ℕ) (seed : ℕ) :
    (q.is_empty = true → q.sample seed = (none, q)) ∧
    (q.is_empty = false →
      ∃ a, (q.sample seed).1 = some a ∧ a ∈ q.queue ∧
        (q.sample seed).2.size + 1 = q.size ∧
        (q.sample seed).2.queue.count a + 1 = q.queue.count a) := by
  constructor
  · intro h
    simp [OrganicQueue.sample, h]
  · intro h
    have hsz : 0 < q.queue.length := by
      simp only [OrganicQueue.is_empty, OrganicQueue.size, beq_eq_false_iff_ne, ne_eq] at h
      omega
    have hi' : randint seed (q.queue.length - 1) < q.queue.length := by
      unfold randint
      have h1 : q.queue.length - 1 + 1 = q.queue.length := by omega
      rw [h1]
      exact Nat.mod_lt seed hsz
    have hsample : q.sample seed =
        (q.queue[randint seed (q.queue.length - 1)]?,
          ⟨q.queue.eraseIdx (randint seed (q.queue.length - 1)), q.max_size⟩) := by
      simp [OrganicQueue.sample, OrganicQueue.size, h]
    refine ⟨q.queue[randint seed (q.queue.length - 1)], ?_, ?_, ?_, ?_⟩
    · rw [hsample]
      simp [List.getElem?_eq_getElem hi']
    · exact q.queue.getElem_mem hi'
    · rw [hsample]
      simp only [OrganicQueue.size]
      rw [List.length_eraseIdx, if_pos hi']
      omega
    · rw [hsample]
      exact count_eraseIdx_getElem q.queue (randint seed (q.queue.length - 1)) hi'

/-- Witness for C5 at the queue [5] with seed 0 (non-empty branch). -/
theorem sample_removes_one_occurrence_witness :
    ∃ a, ((OrganicQueue.mk [5] 10).sample 0).1 = some a ∧
      a ∈ (OrganicQueue.mk [5] 10).queue ∧
      ((OrganicQueue.mk [5] 10).sample 0).2.size + 1 = (OrganicQueue.mk [5] 10).size ∧
      ((OrganicQueue.mk [5] 10).sample 0).2.queue.count a + 1 =
        (OrganicQueue.mk [5] 10).queue.count a :=
  (sample_removes_one_occurrence ⟨[5], 10⟩ 0).2 (by decide)

/-! ## Adaptive pacing law: `organic_scoring_base.py`, `_trigger_delay` -/

/-- The `dynamic_frequency` of `_trigger_delay` (organic_scoring_base.py,
line 312), seconds mode:
`max(self._trigger_frequency - (size / self._trigger_scaling_factor), self._trigger_min)`.
Python floats are modelled as rationals; `size` is the queue backlog. -/
def dynamic_frequency (frequency scalingFactor minFrequency : ℚ) (backlog : ℕ) : ℚ :=
  max (frequency - (backlog : ℚ) / scalingFactor) minFrequency

/-- The `dynamic_steps` of `_trigger_delay` (organic_scoring_base.py,
line 317), steps mode:
`max(self._trigger_frequency - (size // self._trigger_scaling_factor), self._trigger_min)`.
Integer-valued configuration is modelled on `ℤ`; the Python floor division
`//` is `Int.fdiv` (they agree on the non-negative operands that occur:
`size` is a length and the scaling factor is asserted positive). -/
def dynamic_steps (frequency minFrequency scalingFactor : ℤ) (size : ℕ) : ℤ :=
  max (frequency - Int.fdiv (size : ℤ) scalingFactor) minFrequency

/-- The steps branch of `_trigger_delay` (organic_scoring_base.py, line 319):
`self._step_counter = max(self._step_counter - dynamic_steps, 0)`; returns
the new value of the step counter. -/
def step_counter_after (counter frequency minFrequency scalingFactor : ℤ) (size : ℕ) : ℤ :=
  max (counter - dynamic_steps frequency minFrequency scalingFactor size) 0

/-- Modelled from the spec: the step-accounting behaviour the spec ascribes
to the steps branch of the Pacing phase — decrement the counter by the
dynamic unit only when at least `unit` steps have accumulated, otherwise
wait (no update is performed until further increments arrive, signalled
here by `none`). -/
def step_update_spec (counter unit : ℤ) : Option ℤ :=
  if unit ≤ counter then some (counter - unit) else none

/-- C1 (confirmed): for fixed positive `frequency`, `scalingFactor` and
`minFrequency`, the annealed pacing unit is non-increasing in the backlog
and bounded below by `minFrequency`; with frequency 10, scalingFactor 5 and
minFrequency 2 the backlogs 0, 20, 100 give 10, 6, 2. -/
theorem pacing_monotone_bounded (frequency scalingFactor minFrequency : ℚ)
    (hf : 0 < frequency) (hs : 0 < scalingFactor) (hm : 0 < minFrequency) :
    (∀ b₁ b₂ : ℕ, b₁ ≤ b₂ →
      dynamic_frequency frequency scalingFactor minFrequency b₂ ≤
        dynamic_frequency frequency scalingFactor minFrequency b₁) ∧
    (∀ b : ℕ, minFrequency ≤ dynamic_frequency frequency scalingFactor minFrequency b) ∧
    dynamic_frequency 10 5 2 0 = 10 ∧
    dynamic_frequency 10 5 2 20 = 6 ∧
    dynamic_frequency 10 5 2 100 = 2 := by
  refine ⟨?_, ?_, ?_, ?_, ?_⟩
  · intro b₁ b₂ hb
    unfold dynamic_frequency
    have hdiv : (b₁ : ℚ) / scalingFactor ≤ (b₂ : ℚ) / scalingFactor := by
      apply div_le_div_of_nonneg_right ?_ hs.le
      exact_mod_cast hb
    exact max_le_max (by linarith) le_rfl
  · intro b
    exact le_max_right _ _
  · unfold dynamic_frequency
    rw [max_eq_left (by norm_num)]
    norm_num
  · unfold dynamic_frequency
    rw [show ((10 : ℚ) - (20 : ℕ) / 5) = 6 by norm_num, max_eq_left (by norm_num)]
  · unfold dynamic_frequency
    rw [show ((10 : ℚ) - (100 : ℕ) / 5) = -10 by norm_num, max_eq_right (by norm_num)]

/-- Witness for C1 at frequency 10, scalingFactor 5, minFrequency 2,
backlogs 0 and 20. -/
theorem pacing_monotone_bounded_witness :
    (0 : ℚ) < 10 ∧
    dynamic_frequency 10 5 2 20 ≤ dynamic_frequency 10 5 2 0 ∧
    (2 : ℚ) ≤ dynamic_frequency 10 5 2 20 := by
  have h := pacing_monotone_bounded 10 5 2 (by norm_num) (by norm_num) (by norm_num)
  exact ⟨by norm_num, h.1 0 20 (by norm_num), h.2.1 20⟩

/-- C3 counterexample: with frequency 10, minFrequency 2, scalingFactor 5
and an empty queue, the dynamic unit is 10; with only 1 accumulated step the
spec-modelled behaviour waits (no update), but the code performs the update
immediately and clamps the counter from 1 to 0, discarding the deficit
instead of waiting — so the claim that the scheduler decrements only when
enough steps have accumulated, and otherwise waits, is false. -/
theorem step_clamp_not_wait :
    dynamic_steps 10 2 5 0 = 10 ∧
    step_update_spec 1 (dynamic_steps 10 2 5 0) = none ∧
    step_counter_after 1 10 2 5 0 = 0 ∧
    (0 : ℤ) ≠ 1 := by
  refine ⟨?_, ?_, ?_, by decide⟩ <;> decide

/-- C3 (amended): in Steps mode the iteration always updates the counter to
`max(counter - unit, 0)`: the counter never becomes negative, and when at
least `unit` steps have accumulated the excess carries over exactly
(`counter - unit`); but when fewer than `unit` steps have accumulated the
counter is clamped to zero immediately (the deficit is discarded) rather
than waiting for more steps before decrementing. -/
theorem step_counter_clamped_update (counter frequency minFrequency scalingFactor : ℤ)
    (size : ℕ) :
    0 ≤ step_counter_after counter frequency minFrequency scalingFactor size ∧
    (dynamic_steps frequency minFrequency scalingFactor size ≤ counter →
      step_counter_after counter frequency minFrequency scalingFactor size =
        counter - dynamic_steps frequency minFrequency scalingFactor size) ∧
    (counter ≤ dynamic_steps frequency minFrequency scalingFactor size →
      step_counter_after counter frequency minFrequency scalingFactor size = 0) := by
  unfold step_counter_after
  refine ⟨le_max_right _ _, ?_, ?_⟩
  · intro hle
    exact max_eq_left (by omega)
  · intro hge
    exact max_eq_right (by omega)

/-- Witness for C3 (amended) at counter 25, frequency 10, minFrequency 2,
scalingFactor 5 and backlog 0 (unit 10, carry-over 15). -/
theorem step_counter_clamped_update_witness :
    0 ≤ step_counter_after 25 10 2 5 0 ∧
    step_counter_after 25 10 2 5 0 = 25 - dynamic_steps 10 2 5 0 := by
  have h := step_counter_clamped_update 25 10 2 5 0
  exact ⟨h.1, h.2.1 (by decide)⟩

/-! ## Scheduler construction: `organic_scoring_base.py`, `__init__` -/

/-- The trigger mode (organic_scoring_base.py, line 20). -/
inductive Trigger where
  | seconds
  | steps
deriving DecidableEq, Repr

/-- Constructor default for `trigger_frequency_min`
(organic_scoring_base.py, line 21). -/
def default_trigger_frequency_min : ℚ := 2

/-- Constructor default for `trigger_scaling_factor`
(organic_scoring_base.py, line 22). -/
def default_trigger_scaling_factor : ℚ := 50

/-- Constructor default for the queue capacity `max_size`
(organic_queue.py, line 9). -/
def default_max_size : ℕ := 10000

/-- State set up by `OrganicScoringBase.__init__`
(organic_scoring_base.py, lines 64-80): configuration fields, the organic
queue, and the step counter (initially 0). -/
structure Scheduler where
  trigger_frequency : ℚ
  trigger : Trigger
  trigger_min : ℚ
  trigger_scaling_factor : ℚ
  organic_queue : OrganicQueue ℕ
  step_counter : ℤ
deriving DecidableEq, Repr

/-- Model of `OrganicScoringBase.__init__` (organic_scoring_base.py,
lines 64-80): stores the configuration, asserts
`trigger_scaling_factor > 0` (line 74, raising `AssertionError` otherwise),
and defaults the queue to a fresh `OrganicQueue()` of capacity 10000 when
none is supplied (lines 75-77).  No other validation is performed. -/
def scheduler_init (trigger_frequency : ℚ) (trigger : Trigger)
    (trigger_frequency_min trigger_scaling_factor : ℚ)
    (organic_queue : Option (OrganicQueue ℕ)) : Except PyErr Scheduler :=
  if 0 < trigger_scaling_factor then
    .ok ⟨trigger_frequency, trigger, trigger_frequency_min, trigger_scaling_factor,
      organic_queue.getD ⟨[], default_max_size⟩, 0⟩
  else
    .error .assertionError

/-- C7 counterexample: constructing with base frequency 1 and minimum
frequency 10 (minimum greater than base) and a valid scaling factor 5
succeeds — no construction-time error relates the minimum to the base
frequency, contradicting the claim. -/
theorem init_accepts_min_above_frequency :
    scheduler_init 1 .seconds 10 5 none =
      .ok ⟨1, .seconds, 10, 5, ⟨[], 10000⟩, 0⟩ := by
  rfl

/-- C7 (amended): construction fails (with `AssertionError`) exactly when
the scaling factor is not positive; for every configuration with a positive
scaling factor — regardless of how the minimum frequency compares to the
base frequency — construction succeeds. -/
theorem init_fails_iff_scaling_nonpos (frequency minFrequency scalingFactor : ℚ)
    (trigger : Trigger) (organic_queue : Option (OrganicQueue ℕ)) :
    (scalingFactor ≤ 0 →
      scheduler_init frequency trigger minFrequency scalingFactor organic_queue =
        .error .assertionError) ∧
    (0 < scalingFactor →
      scheduler_init frequency trigger minFrequency scalingFactor organic_queue =
        .ok ⟨frequency, trigger, minFrequency, scalingFactor,
          organic_queue.getD ⟨[], default_max_size⟩, 0⟩) := by
  constructor
  · intro hle
    unfold scheduler_init
    rw [if_neg (by linarith)]
  · intro hpos
    unfold scheduler_init
    rw [if_pos hpos]

/-- Witness for C7 (amended): scaling factor 0 is rejected and scaling
factor 5 with minimum 10 above frequency 1 is accepted. -/
theorem init_fails_iff_scaling_nonpos_witness :
    scheduler_init 1 .seconds 10 0 none = .error .assertionError ∧
    scheduler_init 1 .seconds 10 5 none =
      .ok ⟨1, .seconds, 10, 5, (none : Option (OrganicQueue ℕ)).getD ⟨[], default_max_size⟩, 0⟩ :=
  ⟨(init_fails_iff_scaling_nonpos 1 10 0 .seconds none).1 (by norm_num),
   (init_fails_iff_scaling_nonpos 1 10 5 .seconds none).2 (by norm_num)⟩

/-- C9 counterexample: the constructor default for the trigger scaling
factor is 50, not 5 as claimed. -/
theorem default_scaling_factor_is_fifty :
    default_trigger_scaling_factor = 50 ∧ default_trigger_scaling_factor ≠ 5 := by
  constructor
  · rfl
  · unfold default_trigger_scaling_factor
    norm_num

/-- C9 (amended): constructing without supplying the optional parameters
yields minimum trigger frequency 2, trigger scaling factor 50, and a default
queue of capacity 10000 (and an initial step counter of 0). -/
theorem constructor_defaults (frequency : ℚ) (trigger : Trigger) :
    scheduler_init frequency trigger
        default_trigger_frequency_min default_trigger_scaling_factor none =
      .ok ⟨frequency, trigger, 2, 50, ⟨[], 10000⟩, 0⟩ := by
  unfold scheduler_init default_trigger_frequency_min default_trigger_scaling_factor
    default_max_size
  rw [if_pos (by norm_num)]
  rfl

/-! ## The run loop: `organic_scoring_base.py`, `_run_loop`

The loop is modelled for the seconds trigger; the steps-mode gate at
lines 231-233 only delays the start of an iteration and plays no role in
the claims below.  Wall-clock timers (`time.perf_counter`) are real-time
measurements and are omitted from the iteration log model. -/

/-- The Sampling phase of `_run_loop` (organic_scoring_base.py,
lines 237-245): if the organic queue is not empty, pop a random organic
sample and mark it organic; otherwise draw `random.choice(self._synth_dataset).sample()`.
Each synthetic source is modelled by the outcome of its `sample()` call
(which may itself raise); the loop variable `sample` is `Option ℕ` because
the Python value may be `None`.  Randomness enters through the two seeds. -/
def sampling_phase (q : OrganicQueue ℕ) (synth : List (Except PyErr ℕ))
    (seed_q seed_synth : ℕ) : Except PyErr (Option ℕ × Bool × OrganicQueue ℕ) :=
  if q.is_empty = false then
    let r := q.sample seed_q
    .ok (r.1, true, r.2)
  else
    (random_choice seed_synth synth).bind (fun src => src.map (fun s => (some s, false, q)))

/-- C6 (confirmed): whenever the organic queue is non-empty at the start of
the Sampling phase, the phase succeeds, the sample is popped from the
organic queue (it is some element of the queue, whose size drops by one)
and the iteration is marked organic; the synthetic sources are not
consulted — the result is the same for every synthetic source list and
synthetic seed. -/
theorem organic_precedence (q : OrganicQueue ℕ) (synth : List (Except PyErr ℕ))
    (seed_q seed_synth : ℕ) (h : q.is_empty = false) :
    (∃ a q1, sampling_phase q synth seed_q seed_synth = .ok (some a, true, q1) ∧
      a ∈ q.queue ∧ q1.size + 1 = q.size) ∧
    (∀ synth2 : List (Except PyErr ℕ), ∀ seed2 : ℕ,
      sampling_phase q synth seed_q seed_synth = sampling_phase q synth2 seed_q seed2) := by
  constructor
  · obtain ⟨a, ha, hmem, hsz, _⟩ := (sample_removes_one_occurrence q seed_q).2 h
    refine ⟨a, (q.sample seed_q).2, ?_, hmem, hsz⟩
    simp only [sampling_phase, h, if_pos]
    rw [ha]
  · intro synth2 seed2
    simp only [sampling_phase, h, if_pos]

/-- Witness for C6 at the queue [3, 4] with seeds 0 and an arbitrary
synthetic source list. -/
theorem organic_precedence_witness :
    (∃ a q1,
      sampling_phase ⟨[3, 4], 10⟩ [Except.ok 9] 0 0 = .ok (some a, true, q1) ∧
      a ∈ (OrganicQueue.mk [3, 4] 10).queue ∧ q1.size + 1 = (OrganicQueue.mk [3, 4] 10).size) ∧
    (∀ synth2 : List (Except PyErr ℕ), ∀ seed2 : ℕ,
      sampling_phase ⟨[3, 4], 10⟩ [Except.ok 9] 0 0 = sampling_phase ⟨[3, 4], 10⟩ synth2 0 seed2) :=
  organic_precedence ⟨[3, 4], 10⟩ [Except.ok 9] 0 0 (by decide)

/-- C8 counterexample: with an empty organic queue and no synthetic sources
configured, the Sampling phase raises `IndexError` (from `random.choice` on
an empty sequence) instead of skipping the iteration without raising — the
claimed empty-workload skip does not exist in the code. -/
theorem empty_workload_raises_index_error :
    sampling_phase ⟨[], 10000⟩ [] 0 0 = .error .indexError := by
  rfl

/-- C8 (amended): in every iteration in which the organic queue is empty and
no synthetic sources are configured, the Sampling phase raises `IndexError`
(`random.choice` on an empty sequence); the exception propagates (there is
no handler in the loop), so the remainder of the iteration is not reached,
no log is produced, and control never reaches the Pacing phase. -/
theorem empty_workload_raises (q : OrganicQueue ℕ) (seed_q seed_synth : ℕ)
    (h : q.is_empty = true) :
    sampling_phase q [] seed_q seed_synth = .error .indexError := by
  simp only [sampling_phase, h]
  rfl

/-- Witness for C8 (amended) at the default empty queue. -/
theorem empty_workload_raises_witness :
    sampling_phase ⟨[], 10000⟩ [] 5 7 = .error .indexError :=
  empty_workload_raises ⟨[], 10000⟩ 5 7 (by decide)

/-! ## The size() TypeError: property versus call -/

/-- Model of a Python call on an `int` value: calling an integer always
raises `TypeError` (`int object is not callable`). -/
def call_int (n : ℤ) : Except PyErr ℤ :=
  .error .typeError

/-- The expression `self._organic_queue.size()` as evaluated by Python
against the default `OrganicQueue`: `size` is a `@property`, so the
attribute access yields the `int` `len(self._queue)`, and the trailing call
then calls that `int`. -/
def size_call (q : OrganicQueue ℕ) : Except PyErr ℤ :=
  call_int (q.size : ℤ)

/-- Per-iteration log fields of `_run_loop` (organic_scoring_base.py,
lines 268-276), restricted to the non-timer fields. -/
structure IterationLog where
  organic_queue_size : ℤ
  is_organic_sample : Bool
deriving DecidableEq, Repr

/-- Construction of the `logs` dict (organic_scoring_base.py, lines 268-276):
the entry `"organic_queue_size"` evaluates `self._organic_queue.size()`. -/
def build_logs (q : OrganicQueue ℕ) (is_organic_sample : Bool) : Except PyErr IterationLog :=
  (size_call q).map (fun n => ⟨n, is_organic_sample⟩)

/-- `_trigger_delay` (organic_scoring_base.py, lines 308-314) as executed:
its first statement is `size = self._organic_queue.size()`; in seconds mode
the result would be the sleep duration
`max(dynamic_frequency - timer_elapsed, 0)`. -/
def trigger_delay_run (q : OrganicQueue ℕ)
    (frequency scalingFactor minFrequency timer_elapsed : ℚ) : Except PyErr ℚ :=
  (size_call q).map (fun size =>
    max (max (frequency - (size : ℚ) / scalingFactor) minFrequency - timer_elapsed) 0)

/-- C10 (confirmed): with the default `OrganicQueue`, whose `size` is a
property returning an integer, every evaluation of
`self._organic_queue.size()` calls an integer and raises `TypeError`; hence
the log construction at line 274 and the pacing computation at line 309 can
never complete, for every queue state and every configuration. -/
theorem size_call_type_error (q : OrganicQueue ℕ) (is_organic_sample : Bool)
    (frequency scalingFactor minFrequency timer_elapsed : ℚ) :
    size_call q = .error .typeError ∧
    build_logs q is_organic_sample = .error .typeError ∧
    trigger_delay_run q frequency scalingFactor minFrequency timer_elapsed =
      .error .typeError := by
  exact ⟨rfl, rfl, rfl⟩

/-! ## Exception semantics of the run loop -/

/-- The injected collaborators called by one iteration of `_run_loop`
(organic_scoring_base.py, lines 249-283): reference generation, miner
query, reward generation, weight setting and result logging.  Each may
raise, modelled by `Except`.  Samples, responses, rewards and references
are opaque values, modelled as natural numbers (the sample is `Option ℕ`
since the Python value may be `None`). -/
structure Collaborators where
  generate_reference : Option ℕ → Except PyErr (Option ℕ)
  query_miners : Option ℕ → Except PyErr ℕ
  generate_rewards : Option ℕ → ℕ → Option ℕ → Except PyErr ℕ
  set_weights : ℕ → Except PyErr Unit
  log_results : IterationLog → Except PyErr IterationLog

/-- One iteration of the body of `_run_loop` (organic_scoring_base.py,
lines 235-283): Sampling, then reference generation and miner query (the
`asyncio.gather` join is modelled sequentially; if either sub-task raises,
`gather` re-raises that exception), then reward generation, weight setting,
log construction and the logging hook.  There is no exception handler
anywhere in the body: the first exception aborts the iteration. -/
def run_loop_iter (c : Collaborators) (synth : List (Except PyErr ℕ))
    (q : OrganicQueue ℕ) (seed_q seed_synth : ℕ) :
    Except PyErr (OrganicQueue ℕ × IterationLog) :=
  (sampling_phase q synth seed_q seed_synth).bind (fun r =>
    (c.generate_reference r.1).bind (fun reference =>
      (c.query_miners r.1).bind (fun responses =>
        (c.generate_rewards r.1 responses reference).bind (fun rewards =>
          (c.set_weights rewards).bind (fun _ =>
            (build_logs r.2.2 r.2.1).bind (fun logs =>
              (c.log_results logs).map (fun _ => (r.2.2, logs))))))))

/-- Outcome of running the loop for a bounded number of iterations. -/
inductive LoopResult where
  | stopped (q : OrganicQueue ℕ)
  | crashed (e : PyErr) (q : OrganicQueue ℕ)
  | running (q : OrganicQueue ℕ)
deriving DecidableEq, Repr

/-- The `while not self._should_exit` loop of `_run_loop`
(organic_scoring_base.py, lines 230-284), run for at most `fuel`
iterations: the exit flag (set by `stop()`) is checked between iterations;
an exception raised by the body propagates out of the coroutine and
terminates the loop (`crashed`) because the body has no handler.  The seed
and exit-flag streams are indexed by the remaining fuel. -/
def run_loop (c : Collaborators) (synth : List (Except PyErr ℕ))
    (seeds : ℕ → ℕ × ℕ) (should_exit : ℕ → Bool) :
    ℕ → OrganicQueue ℕ → LoopResult
  | 0, q => .running q
  | n + 1, q =>
    if should_exit (n + 1) then .stopped q
    else
      match run_loop_iter c synth q (seeds (n + 1)).1 (seeds (n + 1)).2 with
      | .ok (q1, _) => run_loop c synth seeds should_exit n q1
      | .error e => .crashed e q

/-- A collaborator set whose miner query always raises, all other
collaborators succeeding. -/
def crashing_collaborators : Collaborators :=
  ⟨fun _ => .ok none, fun _ => .error (.exception "boom"),
   fun _ _ _ => .ok 0, fun _ => .ok (), fun logs => .ok logs⟩

/-- C2 counterexample: a miner query that raises on a loop whose exit flag
is never set terminates the scheduler loop with that exception — it is not
caught, no backoff is slept, and the loop does not continue, contradicting
the claim that every collaborator exception is caught inside the loop body
and the loop resumes. -/
theorem collaborator_exception_terminates_loop :
    run_loop crashing_collaborators [] (fun _ => (0, 0)) (fun _ => false) 5 ⟨[7], 10000⟩ =
      .crashed (.exception "boom") ⟨[7], 10000⟩ := by
  rfl

/-- C2 (amended): no exception is caught inside the loop body.  In each
round: if the exit flag is observed the loop stops; otherwise, if the
iteration body raises any exception, that exception propagates and the loop
terminates with it (no report, no backoff, no resumption); the loop
continues only when the entire iteration completes without raising.  Hence
`stop()` is not the only way the loop terminates. -/
theorem exception_propagates_uncaught (c : Collaborators) (synth : List (Except PyErr ℕ))
    (seeds : ℕ → ℕ × ℕ) (should_exit : ℕ → Bool) (fuel : ℕ) (q : OrganicQueue ℕ) :
    (should_exit (fuel + 1) = true →
      run_loop c synth seeds should_exit (fuel + 1) q = .stopped q) ∧
    (∀ e, should_exit (fuel + 1) = false →
      run_loop_iter c synth q (seeds (fuel + 1)).1 (seeds (fuel + 1)).2 = .error e →
      run_loop c synth seeds should_exit (fuel + 1) q = .crashed e q) ∧
    (∀ q1 logs, should_exit (fuel + 1) = false →
      run_loop_iter c synth q (seeds (fuel + 1)).1 (seeds (fuel + 1)).2 = .ok (q1, logs) →
      run_loop c synth seeds should_exit (fuel + 1) q =
        run_loop c synth seeds should_exit fuel q1) := by
  refine ⟨?_, ?_, ?_⟩
  · intro hstop
    simp [run_loop, hstop]
  · intro e hstop herr
    simp [run_loop, hstop, herr]
  · intro q1 logs hstop hok
    simp [run_loop, hstop, hok]

/-- Witness for C2 (amended): the crashing miner query at fuel 3. -/
theorem exception_propagates_uncaught_witness :
    run_loop crashing_collaborators [] (fun _ => (0, 0)) (fun _ => false) 3 ⟨[7], 10000⟩ =
      .crashed (.exception "boom") ⟨[7], 10000⟩ :=
  (exception_propagates_uncaught crashing_collaborators [] (fun _ => (0, 0)) (fun _ => false)
    2 ⟨[7], 10000⟩).2.1 (.exception "boom") rfl rfl

end OrganicScoring
